import Mathlib

/-!
Verification of the g-player timeline-scrubbing / thumbnail-preview subsystem.

The definitions below are a shallow embedding of the relevant parts of
src/stardust-player.js (the current player generation) and of the duplicated
formatTime helper in src/gplayer.js.  JavaScript numbers are modelled as exact
rationals, DOM state is made explicit (records), timers are modelled as
explicit pending-timer slots with fire events, and the unbounded sampling
loop is given an explicit fuel bound that is provably sufficient.
-/

namespace GPlayer

/-- The `clamp(min, n, max)` helper, src/stardust-player.js lines 47-49. -/
def clamp (lo n hi : ℚ) : ℚ := min (max n lo) hi

/-- JavaScript `String(n).padStart(2, '0')`: left-pad a string with the
character 0 until it is at least two characters long. -/
def padStart2 (s : String) : String :=
  String.mk (List.replicate (2 - s.length) '0') ++ s

/-- Mathematical remainder on rationals, `a mod b = a - b * floor (a / b)`;
used only to state claims phrased with `mod`. -/
def qmod (a b : ℚ) : ℚ := a - b * ⌊a / b⌋

/-- `formatTime`, src/stardust-player.js lines 23-28 (duplicated verbatim in
src/gplayer.js lines 205-210).  `hours ? long : short` in JS selects the long
form exactly when the hours value is nonzero. -/
def formatTime (time : ℚ) : String :=
  let hours : ℤ := ⌊time / 3600⌋
  let minutes : ℤ := ⌊(time - (hours : ℚ) * 3600) / 60⌋
  let seconds : ℤ := ⌊time - (hours : ℚ) * 3600 - (minutes : ℚ) * 60⌋
  if hours = 0 then
    toString minutes ++ ":" ++ padStart2 (toString seconds)
  else
    toString hours ++ ":" ++ padStart2 (toString minutes) ++ ":" ++ padStart2 (toString seconds)

/-- A cached preview frame `{ timecode, image }`; the bitmap is an opaque
handle, src/stardust-player.js line 247. -/
structure ThumbnailFrame where
  timecode : ℚ
  image : ℕ
  deriving DecidableEq

/-- The inner sampling loop of `renderSeekBarPreviewImages`,
src/stardust-player.js line 255:
`for (let t = firstTimecode; t < duration; t += firstTimecode * 2)`.
The JS loop is unbounded; here it carries an explicit fuel that bounds the
number of iterations (any fuel of at least `2 ^ i` iterations is exact for
`firstTimecode = duration / 2 ^ i`). -/
def renderLoop (duration step : ℚ) : ℕ → ℚ → List ℚ
  | 0, _ => []
  | fuel + 1, t => if t < duration then t :: renderLoop duration step fuel (t + step * 2) else []

/-- The full sampling schedule of `renderSeekBarPreviewImages`,
src/stardust-player.js lines 252-258: the final frame at `t = duration`
first, then for `i = 1..iterations` the loop starting at
`duration / 2 ^ i`. -/
def sampleSchedule (duration : ℚ) (iterations : ℕ) : List ℚ :=
  duration :: (List.range iterations).flatMap (fun i =>
    let firstTimecode := duration / 2 ^ (i + 1)
    renderLoop duration firstTimecode (2 ^ (i + 1)) firstTimecode)

/-- ECMAScript `SortCompare` of the comparator passed at
src/stardust-player.js line 248, `(a, b) => a.timecode > b.timecode`: the
boolean result is coerced by `ToNumber` to 1 (true) or 0 (false); it is never
negative. -/
def sortCompare (a b : ThumbnailFrame) : ℤ :=
  if a.timecode > b.timecode then 1 else 0

/-- ECMAScript consistency conditions for a comparison function on the given
elements (the conditions `Array.prototype.sort` needs for the result to be
sorted; with an inconsistent comparator the sort order is
implementation-defined). -/
def IsConsistentCompareFn (c : ThumbnailFrame → ThumbnailFrame → ℤ) (xs : List ThumbnailFrame) : Prop :=
  ∀ a ∈ xs, ∀ b ∈ xs, (c a b = 0 ↔ c b a = 0) ∧ (c a b < 0 ↔ 0 < c b a)

/-- The preview lookup in `animationLoop`, src/stardust-player.js lines
527-533 (same pattern in `updateseekBarPopover`, src/gplayer.js lines
566-574): scan the cache in order, set the displayed image to the first
frame whose timecode is at least the query and stop; if no frame matches,
the displayed image `disp` is left unchanged. -/
def previewUpdate (cache : List ThumbnailFrame) (query : ℚ) (disp : ℕ) : ℕ :=
  match cache with
  | [] => disp
  | f :: rest => if f.timecode ≥ query then f.image else previewUpdate rest query disp

/-- The scrub-pipeline timecode, src/stardust-player.js line 91:
`duration * (clientX - left) / width` (no clamping). -/
def scrubTimecode (duration left width clientX : ℚ) : ℚ :=
  duration * (clientX - left) / width

/-- The preview-pipeline timecode, src/stardust-player.js line 135:
`clamp(0, clientX - left, width) / width * duration`. -/
def previewTimecode (duration left width clientX : ℚ) : ℚ :=
  clamp 0 (clientX - left) width / width * duration

/-- The preview pointermove handler, src/stardust-player.js lines 132-138:
it returns without emitting anything when `offsetWidth + offsetHeight == 0`,
otherwise it emits a previewtimechange intent with the computed timecode. -/
def previewEmit (offsetWidth offsetHeight : ℕ) (duration left width clientX : ℚ) : Option ℚ :=
  if offsetWidth + offsetHeight = 0 then none
  else some (previewTimecode duration left width clientX)

/-- The scrub pointermove handler `updateScrubbing`, src/stardust-player.js
lines 88-93: it is gated only on the `scrubbing` flag; there is no width
guard. -/
def scrubEmit (scrubbing : Bool) (duration left width clientX : ℚ) : Option ℚ :=
  if scrubbing then some (scrubTimecode duration left width clientX) else none

/-- A parsed subtitle entry `{ start, end, text }` (the `end` field is named
`endT` because `end` is reserved in Lean), src/stardust-player.js lines
37-44. -/
structure Subtitle where
  start : ℚ
  endT : ℚ
  text : String
  deriving DecidableEq

/-- The subtitle pass of `animationLoop`, src/stardust-player.js lines
541-550: when subtitles are enabled, scan for the first entry with
`currentTime >= start && currentTime < end` and render its text through the
external markdown+sanitizer pipeline (`render`); otherwise the resolved
content is the empty string. -/
def resolveSubtitle (render : String → String) (enabled : Bool) (subs : List Subtitle) (t : ℚ) : String :=
  if enabled then
    match subs.find? (fun s => decide (t ≥ s.start) && decide (t < s.endT)) with
    | some s => render s.text
    | none => ""
  else ""

/-- The conditional rewrite of the subtitle container, src/stardust-player.js
line 551: the display is rewritten (second component `true`) only when the
resolved content differs from what is displayed. -/
def applySubtitleDisplay (disp newSubs : String) : String × Bool :=
  if disp ≠ newSubs then (newSubs, true) else (disp, false)

/-- The subtitle collection of the spec's resolution test. -/
def demoSubs : List Subtitle := [⟨0, 2, "a"⟩, ⟨2, 4, "b"⟩]

/-- The option block of the StardustPlayer constructor, src/stardust-player.js
lines 271-280. -/
structure PlayerOptions where
  doubleClickDuration : ℚ
  doubleTapJumpDuration : ℚ
  doubleTapJumpDistance : ℚ
  doubleTapJumpScreenPortion : ℚ
  hideControlsTimeout : ℚ
  hideControlsTimeoutMobile : ℚ
  previewImageIterations : ℕ
  deriving DecidableEq

/-- The default option values, src/stardust-player.js lines 271-280. -/
def defaultOptions : PlayerOptions :=
  ⟨250, 250, 5, 3/10, 1500, 3000, 8⟩

/-- State of the hide-controls debounce machine, src/stardust-player.js lines
312-322.  `hidden` mirrors membership of the controls-hidden class;
`pending` holds the ids of outstanding debounce timers (a setTimeout that has
neither fired nor been cleared); `lastId` is the `hideControlsTimeout`
variable holding the most recently started timer's id; `nextId` supplies
fresh ids. -/
structure HideCtl where
  hidden : Bool
  pending : List ℕ
  lastId : ℕ
  nextId : ℕ
  deriving DecidableEq

/-- Events driving the hide-controls machine: a qualifying activity signal
(any call of `updateHideControls`), or an outstanding debounce timer firing
while the session's paused/ended flags hold the given values. -/
inductive HideEvent where
  | activity
  | fire (id : ℕ) (paused ended : Bool)
  deriving DecidableEq

/-- One step of the hide-controls machine.  `activity` is the body of
`updateHideControls` (lines 314-322): remove the hidden class, clear the
stored timer, start a fresh one.  `fire` is the timer callback (lines
317-321): a timer that is no longer pending was cleared and does nothing;
a pending one is consumed and hides the controls unless paused or ended. -/
def hideStep (s : HideCtl) : HideEvent → HideCtl
  | .activity =>
      ⟨false, (s.pending.erase s.lastId) ++ [s.nextId], s.nextId, s.nextId + 1⟩
  | .fire id paused ended =>
      if id ∈ s.pending then
        { s with pending := s.pending.erase id,
                 hidden := if paused || ended then s.hidden else true }
      else s

/-- Initial hide-controls state: the element starts without the
controls-hidden class and no timer has been started. -/
def hideInit : HideCtl := ⟨false, [], 0, 1⟩

/-- Run the hide-controls machine over a list of events. -/
def hideRun (evs : List HideEvent) : HideCtl := evs.foldl hideStep hideInit

/-- Invariant of the hide-controls machine: every outstanding debounce timer
is the most recently started one (so there is at most one). -/
def HideInv (s : HideCtl) : Prop := s.pending = [] ∨ s.pending = [s.lastId]

/-- State of the mouse tap classifier, src/stardust-player.js lines 414-430:
the `lastClickTime` variable, the pending deferred toggle-paused timer
(`playPauseTimeout`, recorded with its fire deadline), and counters of the
toggles performed so far. -/
structure MouseCtl where
  lastClickTime : ℚ
  pendingPlayPause : Option ℚ
  fullscreenToggles : ℕ
  pausedToggles : ℕ
  deriving DecidableEq

/-- Initial mouse-classifier state: `lastClickTime = 0`, no pending timer. -/
def mouseInit : MouseCtl := ⟨0, none, 0, 0⟩

/-- The mouse branch of the pointerdown handler, src/stardust-player.js lines
419-430: ignore unless primary button; clear the pending deferred toggle;
within the double-click window of the previous contact toggle fullscreen and
return; otherwise record the contact time and defer a toggle-paused by
`doubleClickDuration`. -/
def mouseDown (opts : PlayerOptions) (now : ℚ) (buttons : ℕ) (s : MouseCtl) : MouseCtl :=
  if buttons ≠ 1 then s
  else if now - s.lastClickTime ≤ opts.doubleClickDuration then
    { s with pendingPlayPause := none,
             fullscreenToggles := s.fullscreenToggles + 1 }
  else
    { s with pendingPlayPause := some (now + opts.doubleClickDuration),
             lastClickTime := now }

/-- The deferred toggle-paused timer firing at wall time `now`: it acts only
if still pending and its deadline has been reached, src/stardust-player.js
lines 428-430. -/
def ppFire (now : ℚ) (s : MouseCtl) : MouseCtl :=
  match s.pendingPlayPause with
  | some deadline =>
      if deadline ≤ now then
        { s with pendingPlayPause := none, pausedToggles := s.pausedToggles + 1 }
      else s
  | none => s

/-- Horizontal tap zones of the touch branch. -/
inductive TapZone where
  | left
  | right
  | center
  deriving DecidableEq

/-- Zone classification, src/stardust-player.js line 433:
`portion <= p ? 'l' : (portion >= 1 - p ? 'r' : '')`. -/
def tapZone (opts : PlayerOptions) (portion : ℚ) : TapZone :=
  if portion ≤ opts.doubleTapJumpScreenPortion then TapZone.left
  else if portion ≥ 1 - opts.doubleTapJumpScreenPortion then TapZone.right
  else TapZone.center

/-- State of the touch tap classifier, src/stardust-player.js lines 431-463:
the `lastTapTime` variable, the pending deferred overlay toggle
(`tapJumpTimeout` with its fire deadline), the overlay visibility class, the
no-click guard class, and the list of seek-jump deltas applied so far. -/
structure TouchCtl where
  lastTapTime : ℚ
  pendingOverlay : Option ℚ
  controlsHidden : Bool
  noClick : Bool
  jumps : List ℚ
  deriving DecidableEq

/-- Initial touch-classifier state. -/
def touchInit : TouchCtl := ⟨0, none, false, false, []⟩

/-- The overlay toggle performed on a center tap or by the deferred timer,
src/stardust-player.js lines 445-451 and 453-460: when hidden, show the
controls (the `updateHideControls` path, whose debounce rearm is modelled by
the `HideCtl` machine); when shown, hide them and arm the no-click guard. -/
def overlayToggle (s : TouchCtl) : TouchCtl :=
  if s.controlsHidden then { s with controlsHidden := false }
  else { s with controlsHidden := true, noClick := true }

/-- The touch branch of the pointerdown handler, src/stardust-player.js lines
431-463: classify the contact's horizontal position; clear the pending
deferred overlay toggle; a contact in a jump zone within the double-tap
window of the previous jump-zone contact applies a seek jump of the
configured distance signed by its own zone; a first jump-zone contact defers
an overlay toggle; a center contact toggles the overlay immediately. -/
def touchDown (opts : PlayerOptions) (now clientX offsetLeft offsetWidth : ℚ) (s : TouchCtl) : TouchCtl :=
  let portion := (clientX - offsetLeft) / offsetWidth
  let dir := tapZone opts portion
  let s0 := { s with pendingOverlay := none }
  if dir = TapZone.center then
    overlayToggle s0
  else
    if now - s.lastTapTime ≤ opts.doubleTapJumpDuration then
      { s0 with
          jumps := s0.jumps ++ [if dir = TapZone.right then opts.doubleTapJumpDistance
                                else -opts.doubleTapJumpDistance],
          lastTapTime := now }
    else
      { s0 with lastTapTime := now,
                pendingOverlay := some (now + opts.doubleTapJumpDuration) }

/-- The deferred overlay toggle timer firing at wall time `now`,
src/stardust-player.js lines 453-460. -/
def tapJumpFire (now : ℚ) (s : TouchCtl) : TouchCtl :=
  match s.pendingOverlay with
  | some deadline =>
      if deadline ≤ now then overlayToggle { s with pendingOverlay := none } else s
  | none => s

/-- The mirrored media position of the playback session. -/
structure MediaState where
  currentTime : ℚ
  duration : ℚ
  deriving DecidableEq

/-- Modelled from the spec: the external media collaborator's seek primitive
(assignment to the native video element's currentTime, which is outside this
repository) clamps an out-of-range seek request silently to `[0, duration]`
and never rejects it (spec sections 6 and 7, error class 5). -/
def setCurrentTime (m : MediaState) (v : ℚ) : MediaState :=
  { m with currentTime := clamp 0 v m.duration }

/-- The seek operations the session performs: the scrub timechange listener
(src/stardust-player.js line 294), the keyboard seeks of 5 and 10 seconds
(lines 500-511), and the double-tap jump (line 438). -/
inductive SeekOp where
  | timechange (t : ℚ)
  | arrowLeft
  | arrowRight
  | keyJ
  | keyL
  | tapJump (delta : ℚ)
  deriving DecidableEq

/-- Apply one seek operation through the collaborator's clamping seek. -/
def applySeekOp (op : SeekOp) (m : MediaState) : MediaState :=
  match op with
  | .timechange t => setCurrentTime m t
  | .arrowLeft => setCurrentTime m (m.currentTime - 5)
  | .arrowRight => setCurrentTime m (m.currentTime + 5)
  | .keyJ => setCurrentTime m (m.currentTime - 10)
  | .keyL => setCurrentTime m (m.currentTime + 10)
  | .tapJump delta => setCurrentTime m (m.currentTime + delta)

/- ------------------------------------------------------------------ -/
/- Helper lemmas (shared; not claim theorems)                          -/
/- ------------------------------------------------------------------ -/

/-- The comparator of src/stardust-player.js line 248 is not a consistent
comparison function: it compares the frames at timecodes 20 and 40 as
"equal" in one direction and "greater" in the other, so the post-insertion
order of the cache is implementation-defined per ECMAScript. -/
theorem sortCompare_not_consistent :
    ¬ IsConsistentCompareFn sortCompare [⟨20, 0⟩, ⟨40, 0⟩] := by
  intro h
  have h1 := (h ⟨20, 0⟩ (by simp) ⟨40, 0⟩ (by simp)).1
  simp [sortCompare] at h1
  exact (by norm_num : ¬ (40 : ℚ) ≤ 20) (h1.mp (by norm_num))

/-- `clamp 0 v d` lands in `[0, d]` whenever `0 ≤ d`. -/
theorem clamp_zero_mem (v d : ℚ) (hd : 0 ≤ d) :
    0 ≤ clamp 0 v d ∧ clamp 0 v d ≤ d := by
  constructor
  · exact le_min (le_max_right v 0) hd
  · exact min_le_right _ _

/-- `hideStep` preserves the single-outstanding-timer invariant. -/
theorem hideInv_step (s : HideCtl) (e : HideEvent) (h : HideInv s) :
    HideInv (hideStep s e) := by
  cases e with
  | activity =>
      right
      rcases h with h | h <;> simp [hideStep, h]
  | fire id paused ended =>
      by_cases hm : id ∈ s.pending
      · rcases h with h | h
        · simp [h] at hm
        · left
          have hid : id = s.lastId := by simpa [h] using hm
          simp [hideStep, hm, h, hid]
      · simpa [hideStep, hm] using h

/-- Every state reachable from `hideInit` satisfies the invariant. -/
theorem hideInv_run (evs : List HideEvent) : HideInv (hideRun evs) := by
  have main : ∀ (l : List HideEvent) (s : HideCtl), HideInv s → HideInv (l.foldl hideStep s) := by
    intro l
    induction l with
    | nil => intro s hs; exact hs
    | cons e rest ih => intro s hs; exact ih _ (hideInv_step s e hs)
  exact main evs hideInit (Or.inl rfl)

/- ------------------------------------------------------------------ -/
/- Claim theorems                                                      -/
/- ------------------------------------------------------------------ -/

/-- C1: the thumbnail render schedule for duration 40 and iteration budget 3
samples, in order, 40, 20, 10, 30, 5, 15, 25, 35 (t = D first, then the odd
multiples of D / 2^i below D for i = 1..3).  However the per-insertion sort
that the claim asserts keeps the cache ascending uses the comparator
`(a, b) => a.timecode > b.timecode`, whose ECMAScript SortCompare value is 0
on the frame pair (20, 40) yet 1 on (40, 20) — never negative — so it is not
a consistent comparison function and the resulting cache order is
implementation-defined rather than sorted ascending. -/
theorem c1_schedule_and_sort_comparator :
    sampleSchedule 40 3 = [40, 20, 10, 30, 5, 15, 25, 35]
    ∧ sortCompare ⟨20, 0⟩ ⟨40, 0⟩ = 0
    ∧ sortCompare ⟨40, 0⟩ ⟨20, 0⟩ = 1 := by
  refine ⟨by norm_num [sampleSchedule, renderLoop, List.range_succ],
    by norm_num [sortCompare], by norm_num [sortCompare]⟩

/-- C2: the preview lookup in the animation loop returns the image of the
first cached frame whose timecode is at least the query, and leaves the
displayed image unchanged when no cached frame qualifies (the `getD disp`
default of the `none` case). -/
theorem c2_preview_lookup :
    ∀ (cache : List ThumbnailFrame) (query : ℚ) (disp : ℕ),
      previewUpdate cache query disp
        = ((cache.find? fun f => decide (f.timecode ≥ query)).map ThumbnailFrame.image).getD disp := by
  intro cache query disp
  induction cache with
  | nil => rfl
  | cons f rest ih =>
      by_cases h : f.timecode ≥ query
      · simp [previewUpdate, List.find?_cons, h]
      · simp [previewUpdate, List.find?_cons, h, ih]

/-- C3, counterexample: the scrub pipeline does not clamp.  For the
timeline rectangle left = 100, width = 200, duration = 100 of the claim, a
pointer at clientX = 50 makes the scrub pipeline emit the timecode -25,
which differs from the claimed clamped value and lies outside
[0, duration]. -/
theorem c3_counterexample_scrub_unclamped :
    scrubTimecode 100 100 200 50 = -25
    ∧ scrubTimecode 100 100 200 50 ≠ clamp 0 (50 - 100) 200 / 200 * 100
    ∧ ¬ (0 ≤ scrubTimecode 100 100 200 50) := by
  refine ⟨by norm_num [scrubTimecode], by norm_num [scrubTimecode, clamp],
    by norm_num [scrubTimecode]⟩

/-- C3, amended: only the preview pipeline computes
fraction = clamp(0, clientX - left, width) / width and
timecode = fraction * duration, and its emitted timecode lies in
[0, duration] for every clientX (given width > 0 and duration ≥ 0); the
scrub pipeline computes duration * (clientX - left) / width without
clamping.  At left = 100, width = 200, duration = 100, clientX = 200 both
pipelines yield timecode 50 (fraction 0.5). -/
theorem c3_gesture_mapping :
    ∀ (duration left width clientX : ℚ), 0 < width → 0 ≤ duration →
      previewTimecode duration left width clientX
          = clamp 0 (clientX - left) width / width * duration
      ∧ 0 ≤ previewTimecode duration left width clientX
      ∧ previewTimecode duration left width clientX ≤ duration
      ∧ scrubTimecode duration left width clientX = duration * (clientX - left) / width
      ∧ scrubTimecode 100 100 200 200 = 50
      ∧ previewTimecode 100 100 200 200 = 50 := by
  intro duration left width clientX hw hd
  have hc := clamp_zero_mem (clientX - left) width hw.le
  have hfrac0 : 0 ≤ clamp 0 (clientX - left) width / width := div_nonneg hc.1 hw.le
  have hfrac1 : clamp 0 (clientX - left) width / width ≤ 1 := (div_le_one hw).mpr hc.2
  refine ⟨rfl, ?_, ?_, rfl, by norm_num [scrubTimecode], by norm_num [previewTimecode, clamp]⟩
  · exact mul_nonneg hfrac0 hd
  · calc clamp 0 (clientX - left) width / width * duration
        ≤ 1 * duration := mul_le_mul_of_nonneg_right hfrac1 hd
      _ = duration := one_mul duration

/-- C3, witness: the amended theorem applied at the claim's concrete
rectangle. -/
theorem c3_gesture_mapping_witness :
    (0 : ℚ) < 200 ∧ (0 : ℚ) ≤ 100
    ∧ 0 ≤ previewTimecode 100 100 200 200
    ∧ previewTimecode 100 100 200 200 ≤ 100 :=
  ⟨by norm_num, by norm_num,
   (c3_gesture_mapping 100 100 200 200 (by norm_num) (by norm_num)).2.1,
   (c3_gesture_mapping 100 100 200 200 (by norm_num) (by norm_num)).2.2.1⟩

/-- C4: the resolved subtitle is the first entry whose half-open interval
[start, end) contains the current time: at currentTime = 2 the demo
collection resolves to "b", at 1.999 to "a"; and the subtitle container is
rewritten exactly when the resolved content differs from what is displayed,
after which it shows the resolved content. -/
theorem c4_subtitle_resolution :
    (∀ (render : String → String) (subs : List Subtitle) (t : ℚ),
        resolveSubtitle render true subs t
          = ((subs.find? fun s => decide (t ≥ s.start) && decide (t < s.endT)).map
              fun s => render s.text).getD "")
    ∧ resolveSubtitle id true demoSubs 2 = "b"
    ∧ resolveSubtitle id true demoSubs (1999/1000) = "a"
    ∧ (∀ disp newSubs, (applySubtitleDisplay disp newSubs).2 = decide (disp ≠ newSubs)
        ∧ (applySubtitleDisplay disp newSubs).1 = newSubs) := by
  refine ⟨?_, by norm_num [resolveSubtitle, demoSubs, List.find?],
    by norm_num [resolveSubtitle, demoSubs, List.find?], ?_⟩
  · intro render subs t
    cases h : subs.find? fun s => decide (t ≥ s.start) && decide (t < s.endT) <;>
      simp [resolveSubtitle, h]
  · intro disp newSubs
    by_cases h : disp = newSubs <;> simp [applySubtitleDisplay, h]

/-- C9, counterexample: with offsetWidth = 0 but offsetHeight = 30 (a
zero-width timeline that still has height) the preview guard
`offsetWidth + offsetHeight == 0` does not fire, so a preview intent is
still emitted (the division by the zero width is performed); likewise an
active scrub emits with a zero width. -/
theorem c9_counterexample_zero_width :
    (previewEmit 0 30 100 0 0 50).isSome = true
    ∧ (scrubEmit true 100 0 0 50).isSome = true := by
  refine ⟨by simp [previewEmit], by simp [scrubEmit]⟩

/-- C9, amended: the preview pipeline is a no-op exactly when offsetWidth
and offsetHeight are both zero (their sum is zero), not whenever the width
alone is zero; and the scrub pipeline is suppressed only by the scrubbing
flag — it has no width guard at all. -/
theorem c9_pipeline_guards :
    ∀ (ow oh : ℕ) (duration left width clientX : ℚ) (scrubbing : Bool),
      (previewEmit ow oh duration left width clientX = none ↔ ow + oh = 0)
      ∧ (scrubEmit scrubbing duration left width clientX = none ↔ scrubbing = false) := by
  intro ow oh duration left width clientX scrubbing
  constructor
  · by_cases h : ow + oh = 0 <;> simp [previewEmit, h]
  · cases scrubbing <;> simp [scrubEmit]

/-- C5: the auto-hide machine starts with the controls visible; any activity
signal shows them; a debounce timer firing with paused = false and
ended = false hides the controls, while firing with paused or ended leaves
the visibility unchanged; and in every reachable state at most one debounce
timer is outstanding, because starting a new debounce always clears the
pending one (an activity signal leaves exactly the fresh timer pending). -/
theorem c5_autohide :
    hideInit.hidden = false
    ∧ (∀ s, (hideStep s HideEvent.activity).hidden = false)
    ∧ (∀ s id paused ended,
        (hideStep s (HideEvent.fire id paused ended)).hidden
          = if id ∈ s.pending ∧ paused = false ∧ ended = false then true else s.hidden)
    ∧ (∀ evs, (hideRun evs).pending.length ≤ 1)
    ∧ (∀ evs, (hideStep (hideRun evs) HideEvent.activity).pending = [(hideRun evs).nextId]) := by
  refine ⟨rfl, fun s => rfl, ?_, ?_, ?_⟩
  · intro s id paused ended
    by_cases hm : id ∈ s.pending
    · cases paused <;> cases ended <;> simp [hideStep, hm]
    · cases paused <;> cases ended <;> simp [hideStep, hm]
  · intro evs
    rcases hideInv_run evs with h | h <;> simp [h]
  · intro evs
    rcases hideInv_run evs with h | h <;> simp [hideStep, h]

/-- C6: for mouse input, a second contact-down within the double-click
window toggles fullscreen exactly once, does not toggle paused, and cancels
the deferred toggle-paused (so a later timer fire is a no-op); a single
contact-down with no follow-up toggles paused exactly once when the deferred
timer fires after the window elapses, and leaves fullscreen untouched. -/
theorem c6_mouse_tap :
    ∀ (opts : PlayerOptions) (s : MouseCtl) (t1 t2 tf : ℚ),
      s.pendingPlayPause = none →
      ¬(t1 - s.lastClickTime ≤ opts.doubleClickDuration) →
      t2 - t1 ≤ opts.doubleClickDuration →
      t1 + opts.doubleClickDuration ≤ tf →
      ((mouseDown opts t2 1 (mouseDown opts t1 1 s)).fullscreenToggles = s.fullscreenToggles + 1
        ∧ (mouseDown opts t2 1 (mouseDown opts t1 1 s)).pausedToggles = s.pausedToggles
        ∧ (mouseDown opts t2 1 (mouseDown opts t1 1 s)).pendingPlayPause = none
        ∧ ppFire tf (mouseDown opts t2 1 (mouseDown opts t1 1 s))
            = mouseDown opts t2 1 (mouseDown opts t1 1 s))
      ∧ ((ppFire tf (mouseDown opts t1 1 s)).pausedToggles = s.pausedToggles + 1
        ∧ (ppFire tf (mouseDown opts t1 1 s)).fullscreenToggles = s.fullscreenToggles
        ∧ (ppFire tf (mouseDown opts t1 1 s)).pendingPlayPause = none) := by
  intro opts s t1 t2 tf hp h1 h2 hf
  have hs1 : mouseDown opts t1 1 s
      = { s with pendingPlayPause := some (t1 + opts.doubleClickDuration),
                 lastClickTime := t1 } := by
    simp [mouseDown, h1]
  have hs2 : mouseDown opts t2 1 (mouseDown opts t1 1 s)
      = { s with pendingPlayPause := none, lastClickTime := t1,
                 fullscreenToggles := s.fullscreenToggles + 1 } := by
    rw [hs1]; simp [mouseDown, h2]
  refine ⟨⟨?_, ?_, ?_, ?_⟩, ?_, ?_, ?_⟩
  · rw [hs2]
  · rw [hs2]
  · rw [hs2]
  · rw [hs2]; simp [ppFire]
  · rw [hs1]; simp [ppFire, hf]
  · rw [hs1]; simp [ppFire, hf]
  · rw [hs1]; simp [ppFire, hf]

/-- C6, witness: the classifier starting from its initial state, with
contacts at t = 1000 and t = 1100 (within the default 250 ms window) and the
timer inspected at t = 2000. -/
theorem c6_mouse_tap_witness :
    mouseInit.pendingPlayPause = none
    ∧ ¬((1000 : ℚ) - mouseInit.lastClickTime ≤ defaultOptions.doubleClickDuration)
    ∧ (1100 : ℚ) - 1000 ≤ defaultOptions.doubleClickDuration
    ∧ (1000 : ℚ) + defaultOptions.doubleClickDuration ≤ 2000
    ∧ (mouseDown defaultOptions 1100 1 (mouseDown defaultOptions 1000 1 mouseInit)).fullscreenToggles
        = mouseInit.fullscreenToggles + 1
    ∧ (ppFire 2000 (mouseDown defaultOptions 1000 1 mouseInit)).pausedToggles
        = mouseInit.pausedToggles + 1 :=
  ⟨rfl, by norm_num [mouseInit, defaultOptions], by norm_num [defaultOptions],
   by norm_num [defaultOptions],
   ((c6_mouse_tap defaultOptions mouseInit 1000 1100 2000 rfl
      (by norm_num [mouseInit, defaultOptions]) (by norm_num [defaultOptions])
      (by norm_num [defaultOptions])).1).1,
   ((c6_mouse_tap defaultOptions mouseInit 1000 1100 2000 rfl
      (by norm_num [mouseInit, defaultOptions]) (by norm_num [defaultOptions])
      (by norm_num [defaultOptions])).2).1⟩

/-- C7: with a known nonnegative duration, every seek operation of the
session (scrub timechange, the 5- and 10-second keyboard seeks, the
double-tap jump) leaves the current time clamped inside [0, duration] and
the duration unchanged: an out-of-range request is clamped, never
rejected. -/
theorem c7_seek_clamped :
    ∀ (m : MediaState) (op : SeekOp), 0 ≤ m.duration →
      0 ≤ (applySeekOp op m).currentTime
      ∧ (applySeekOp op m).currentTime ≤ m.duration
      ∧ (applySeekOp op m).duration = m.duration := by
  intro m op hd
  cases op <;>
    exact ⟨(clamp_zero_mem _ _ hd).1, (clamp_zero_mem _ _ hd).2, rfl⟩

/-- C7, witness: a scrub timechange to 500 on a 100-second session stays in
[0, 100]. -/
theorem c7_seek_clamped_witness :
    (0 : ℚ) ≤ (MediaState.mk 0 100).duration
    ∧ 0 ≤ (applySeekOp (SeekOp.timechange 500) (MediaState.mk 0 100)).currentTime
    ∧ (applySeekOp (SeekOp.timechange 500) (MediaState.mk 0 100)).currentTime
        ≤ (MediaState.mk 0 100).duration :=
  ⟨by norm_num,
   (c7_seek_clamped ⟨0, 100⟩ (SeekOp.timechange 500) (by norm_num)).1,
   (c7_seek_clamped ⟨0, 100⟩ (SeekOp.timechange 500) (by norm_num)).2.1⟩

/-- C8, counterexample: the touch classifier never compares the zone of the
second contact with the zone of the first.  From the initial state, a first
tap in the left zone (clientX = 10 over a 100-wide control) at t = 1000
followed by a tap in the right zone (clientX = 90) at t = 1100 — within the
default double-tap window — still performs a seek jump (of the configured
distance, signed by the second zone), refuting "a second contact in a
different zone does not perform a jump". -/
theorem c8_counterexample_cross_zone_jump :
    tapZone defaultOptions (((10 : ℚ) - 0) / 100) = TapZone.left
    ∧ tapZone defaultOptions (((90 : ℚ) - 0) / 100) = TapZone.right
    ∧ (1100 : ℚ) - 1000 ≤ defaultOptions.doubleTapJumpDuration
    ∧ (touchDown defaultOptions 1100 90 0 100 (touchDown defaultOptions 1000 10 0 100 touchInit)).jumps
        = [defaultOptions.doubleTapJumpDistance] := by
  refine ⟨by norm_num [tapZone, defaultOptions], by norm_num [tapZone, defaultOptions],
    by norm_num [defaultOptions], ?_⟩
  norm_num [touchDown, tapZone, overlayToggle, touchInit, defaultOptions]
  simp
  norm_num

/-- C8, amended: a second contact in either jump zone within the double-tap
window of a previous jump-zone contact performs a seek jump of the
configured distance signed by the second contact's own zone — regardless of
whether the zones match — and does not toggle overlay visibility (the
visibility flag and no-click guard are unchanged and the deferred overlay
toggle is cancelled); only a center contact performs no jump. -/
theorem c8_double_tap_jump :
    ∀ (opts : PlayerOptions) (s : TouchCtl) (t1 t2 x1 x2 l w : ℚ),
      tapZone opts ((x1 - l) / w) ≠ TapZone.center →
      tapZone opts ((x2 - l) / w) ≠ TapZone.center →
      ¬(t1 - s.lastTapTime ≤ opts.doubleTapJumpDuration) →
      t2 - t1 ≤ opts.doubleTapJumpDuration →
      touchDown opts t2 x2 l w (touchDown opts t1 x1 l w s)
        = { s with
            lastTapTime := t2,
            pendingOverlay := none,
            jumps := s.jumps ++ [if tapZone opts ((x2 - l) / w) = TapZone.right then opts.doubleTapJumpDistance else -opts.doubleTapJumpDistance] } := by
  intro opts s t1 t2 x1 x2 l w hz1 hz2 h1 h2
  have hs1 : touchDown opts t1 x1 l w s
      = { s with lastTapTime := t1,
                 pendingOverlay := some (t1 + opts.doubleTapJumpDuration) } := by
    simp [touchDown, hz1, h1]
  rw [hs1]
  simp [touchDown, hz2, h2]

/-- C8, witness: the amended theorem at a same-zone double tap (left zone
twice, clientX = 10 then 15, within the default window), which jumps
backwards by the configured distance. -/
theorem c8_double_tap_jump_witness :
    tapZone defaultOptions (((10 : ℚ) - 0) / 100) ≠ TapZone.center
    ∧ tapZone defaultOptions (((15 : ℚ) - 0) / 100) ≠ TapZone.center
    ∧ ¬((1000 : ℚ) - touchInit.lastTapTime ≤ defaultOptions.doubleTapJumpDuration)
    ∧ (1100 : ℚ) - 1000 ≤ defaultOptions.doubleTapJumpDuration
    ∧ touchDown defaultOptions 1100 15 0 100 (touchDown defaultOptions 1000 10 0 100 touchInit)
        = { touchInit with
            lastTapTime := 1100,
            pendingOverlay := none,
            jumps := touchInit.jumps ++ [if tapZone defaultOptions (((15 : ℚ) - 0) / 100) = TapZone.right then defaultOptions.doubleTapJumpDistance else -defaultOptions.doubleTapJumpDistance] } :=
  ⟨by norm_num [tapZone, defaultOptions]; decide, by norm_num [tapZone, defaultOptions]; decide,
   by norm_num [touchInit, defaultOptions], by norm_num [defaultOptions],
   c8_double_tap_jump defaultOptions touchInit 1000 1100 10 15 0 100
     (by norm_num [tapZone, defaultOptions]; decide) (by norm_num [tapZone, defaultOptions]; decide)
     (by norm_num [touchInit, defaultOptions]) (by norm_num [defaultOptions])⟩

/-- C10: for every nonnegative time, the formatter produces H:MM:SS when
t ≥ 3600 and M:SS otherwise, with H = floor(t / 3600),
M = floor((t mod 3600) / 60) and S = floor(t mod 60), the minutes (in the
long form) and seconds fields zero-padded to two digits and the leading
field unpadded. -/
theorem c10_format_time :
    ∀ t : ℚ, 0 ≤ t →
      (3600 ≤ t →
        formatTime t
          = toString ⌊t / 3600⌋ ++ ":" ++ padStart2 (toString ⌊qmod t 3600 / 60⌋)
            ++ ":" ++ padStart2 (toString ⌊qmod t 60⌋))
      ∧ (t < 3600 →
        formatTime t
          = toString ⌊qmod t 3600 / 60⌋ ++ ":" ++ padStart2 (toString ⌊qmod t 60⌋)) := by
  intro t ht
  have hm2 : ⌊(t - (⌊t / 3600⌋ : ℚ) * 3600) / 60⌋ = ⌊t / 60⌋ - 60 * ⌊t / 3600⌋ := by
    have hdiv : (t - (⌊t / 3600⌋ : ℚ) * 3600) / 60 = t / 60 - ((60 * ⌊t / 3600⌋ : ℤ) : ℚ) := by
      push_cast; ring
    rw [hdiv, Int.floor_sub_int]
  have hS : ⌊t - (⌊t / 3600⌋ : ℚ) * 3600 - (⌊(t - (⌊t / 3600⌋ : ℚ) * 3600) / 60⌋ : ℚ) * 60⌋
      = ⌊qmod t 60⌋ := by
    unfold qmod
    rw [hm2]
    congr 1
    push_cast
    ring
  have hM : ⌊(t - (⌊t / 3600⌋ : ℚ) * 3600) / 60⌋ = ⌊qmod t 3600 / 60⌋ := by
    unfold qmod
    congr 2
    ring
  have key : formatTime t
      = if ⌊t / 3600⌋ = 0 then
          toString ⌊qmod t 3600 / 60⌋ ++ ":" ++ padStart2 (toString ⌊qmod t 60⌋)
        else
          toString ⌊t / 3600⌋ ++ ":" ++ padStart2 (toString ⌊qmod t 3600 / 60⌋)
            ++ ":" ++ padStart2 (toString ⌊qmod t 60⌋) := by
    simp only [formatTime]
    rw [hS, hM]
  constructor
  · intro h36
    have hne : ⌊t / 3600⌋ ≠ 0 := by
      have hge : (1 : ℤ) ≤ ⌊t / 3600⌋ := by
        rw [Int.le_floor]
        rw [le_div_iff₀ (by norm_num : (0 : ℚ) < 3600)]
        push_cast
        linarith
      omega
    rw [key, if_neg hne]
  · intro hlt
    have heq : ⌊t / 3600⌋ = 0 := by
      rw [Int.floor_eq_zero_iff]
      exact ⟨div_nonneg ht (by norm_num), by rw [div_lt_one (by norm_num : (0 : ℚ) < 3600)]; exact hlt⟩
    rw [key, if_pos heq]

/-- C10, witness: 3725 seconds formats as 1:02:05 (hour unpadded, minutes
and seconds zero-padded). -/
theorem c10_format_time_witness :
    (0 : ℚ) ≤ 3725 ∧ formatTime 3725 = "1:02:05" := by
  refine ⟨by norm_num, ?_⟩
  have h := (c10_format_time 3725 (by norm_num)).1 (by norm_num)
  rw [h]
  norm_num [qmod]
  decide

end GPlayer
